import Mathlib

/-!
Verification development for `ironic/drivers/modules/redfish/management.py`
(the `RedfishManagement` driver interface).

The Python module is shallowly embedded: Python dicts become insertion-ordered
association lists with Python `dict` semantics (`dinsert`, `pyGet`, `pyUpdate`),
the sushy resource graph becomes explicit record types, lazily-fetched
sub-resources that may raise a remote (Sushy) error become `Except`-valued
fields, and Python exceptions become values of the `Err` type returned through
`Except`.  Mutating operations additionally return the list of remote write
calls they issued, so that "issues no remote write" is a statement about that
trace.
-/

/-- Python dict assignment `d[k] = v` on an insertion-ordered association
list: replaces the value of an existing key in place, otherwise appends the
new binding at the end. -/
def dinsert {κ α : Type} [DecidableEq κ] : List (κ × α) → κ → α → List (κ × α)
  | [], k, v => [(k, v)]
  | p :: d, k, v => if p.1 = k then (k, v) :: d else p :: dinsert d k v

/-- Python `d.get(k)`: `some` of the bound value, `none` when the key is
absent. -/
def pyGet {κ α : Type} [DecidableEq κ] : List (κ × α) → κ → Option α
  | [], _ => none
  | p :: d, k => if p.1 = k then some p.2 else pyGet d k

/-- Python `d.update(s)`: folds the bindings of `s` into `d` in order. -/
def pyUpdate {κ α : Type} [DecidableEq κ] (d s : List (κ × α)) : List (κ × α) :=
  s.foldl (fun acc p => dinsert acc p.1 p.2) d

/-- Python dict literal / comprehension built from a list of bindings in
order (later duplicate keys override earlier ones). -/
def pyDict {κ α : Type} [DecidableEq κ] (l : List (κ × α)) : List (κ × α) :=
  pyUpdate [] l

/-- The keys of a Python dict, in insertion order. -/
def pyKeys {κ α : Type} (d : List (κ × α)) : List κ :=
  d.map Prod.fst

/-- Python `try: f(x) except RemoteError: d` around a fallible remote fetch
`x`: applies `f` to the fetched value, and falls back to `d` when the fetch
raised. -/
def pytry {ε α β : Type} (x : Except ε α) (f : α → β) (d : β) : β :=
  match x with
  | .ok a => f a
  | .error _ => d

/-- Python truthiness of an optional string (`if not value`): `None` and the
empty string are falsy. -/
def pyFalsy : Option String → Bool
  | none => true
  | some s => s.isEmpty

/-! Abstract vocabularies from `ironic.common` (boot_devices, boot_modes,
indicator_states, components): string constants, as in the source. -/

namespace boot_devices

def PXE : String := "pxe"

def DISK : String := "disk"

def CDROM : String := "cdrom"

def BIOS : String := "bios"

end boot_devices

namespace boot_modes

def UEFI : String := "uefi"

def LEGACY_BIOS : String := "bios"

end boot_modes

namespace indicator_states

def ON : String := "on"

def OFF : String := "off"

def BLINKING : String := "blinking"

def UNKNOWN : String := "unknown"

end indicator_states

namespace components

def SYSTEM : String := "system"

def CHASSIS : String := "chassis"

def DISK : String := "disk"

end components

/-! Remote protocol constants of the external sushy library (outside this
repository); modelled as the distinct Redfish protocol literals. -/

namespace sushy

def BOOT_SOURCE_TARGET_PXE : String := "Pxe"

def BOOT_SOURCE_TARGET_HDD : String := "Hdd"

def BOOT_SOURCE_TARGET_CD : String := "Cd"

def BOOT_SOURCE_TARGET_BIOS_SETUP : String := "BiosSetup"

def BOOT_SOURCE_MODE_UEFI : String := "UEFI"

def BOOT_SOURCE_MODE_BIOS : String := "Legacy"

def BOOT_SOURCE_ENABLED_CONTINUOUS : String := "Continuous"

def BOOT_SOURCE_ENABLED_ONCE : String := "Once"

def INDICATOR_LED_LIT : String := "Lit"

def INDICATOR_LED_OFF : String := "Off"

def INDICATOR_LED_BLINKING : String := "Blinking"

def INDICATOR_LED_UNKNOWN : String := "Unknown"

end sushy

/-! The four module-level translation tables and their reverse maps, built
exactly as in the source: the forward maps are dict literals, the reverse
maps are the dict comprehensions over the items of the forward maps. -/

/-- Forward map from sushy boot-source targets to ironic boot devices. -/
def BOOT_DEVICE_MAP : List (String × String) :=
  pyDict [(sushy.BOOT_SOURCE_TARGET_PXE, boot_devices.PXE),
          (sushy.BOOT_SOURCE_TARGET_HDD, boot_devices.DISK),
          (sushy.BOOT_SOURCE_TARGET_CD, boot_devices.CDROM),
          (sushy.BOOT_SOURCE_TARGET_BIOS_SETUP, boot_devices.BIOS)]

/-- Reverse boot-device map, the comprehension over `BOOT_DEVICE_MAP`. -/
def BOOT_DEVICE_MAP_REV : List (String × String) :=
  pyDict (BOOT_DEVICE_MAP.map (fun p => (p.2, p.1)))

/-- Forward map from sushy boot-source modes to ironic boot modes. -/
def BOOT_MODE_MAP : List (String × String) :=
  pyDict [(sushy.BOOT_SOURCE_MODE_UEFI, boot_modes.UEFI),
          (sushy.BOOT_SOURCE_MODE_BIOS, boot_modes.LEGACY_BIOS)]

/-- Reverse boot-mode map. -/
def BOOT_MODE_MAP_REV : List (String × String) :=
  pyDict (BOOT_MODE_MAP.map (fun p => (p.2, p.1)))

/-- Forward map from sushy boot-source-enabled values to the persistence
boolean. -/
def BOOT_DEVICE_PERSISTENT_MAP : List (String × Bool) :=
  pyDict [(sushy.BOOT_SOURCE_ENABLED_CONTINUOUS, true),
          (sushy.BOOT_SOURCE_ENABLED_ONCE, false)]

/-- Reverse persistence map. -/
def BOOT_DEVICE_PERSISTENT_MAP_REV : List (Bool × String) :=
  pyDict (BOOT_DEVICE_PERSISTENT_MAP.map (fun p => (p.2, p.1)))

/-- Forward map from sushy indicator LED values to ironic indicator states. -/
def INDICATOR_MAP : List (String × String) :=
  pyDict [(sushy.INDICATOR_LED_LIT, indicator_states.ON),
          (sushy.INDICATOR_LED_OFF, indicator_states.OFF),
          (sushy.INDICATOR_LED_BLINKING, indicator_states.BLINKING),
          (sushy.INDICATOR_LED_UNKNOWN, indicator_states.UNKNOWN)]

/-- Reverse indicator map. -/
def INDICATOR_MAP_REV : List (String × String) :=
  pyDict (INDICATOR_MAP.map (fun p => (p.2, p.1)))

/-- C2: for every defined abstract value v of each of the four vocabularies
(BootDevice, BootMode, Persistence, IndicatorState), applying the forward
(remote-to-abstract) map to the reverse (abstract-to-remote) image of v
yields v back: forward(reverse(v)) = v. -/
theorem c2_forward_reverse_roundtrip :
    (∀ v ∈ pyKeys BOOT_DEVICE_MAP_REV,
        (pyGet BOOT_DEVICE_MAP_REV v).bind (pyGet BOOT_DEVICE_MAP) = some v)
    ∧ (∀ v ∈ pyKeys BOOT_MODE_MAP_REV,
        (pyGet BOOT_MODE_MAP_REV v).bind (pyGet BOOT_MODE_MAP) = some v)
    ∧ (∀ v : Bool,
        (pyGet BOOT_DEVICE_PERSISTENT_MAP_REV v).bind
          (pyGet BOOT_DEVICE_PERSISTENT_MAP) = some v)
    ∧ (∀ v ∈ pyKeys INDICATOR_MAP_REV,
        (pyGet INDICATOR_MAP_REV v).bind (pyGet INDICATOR_MAP) = some v) := by
  refine ⟨?_, ?_, ?_, ?_⟩ <;> decide

/-- Witness for C2 at the concrete boot device `pxe`. -/
theorem c2_forward_reverse_roundtrip_witness :
    (pyGet BOOT_DEVICE_MAP_REV boot_devices.PXE).bind (pyGet BOOT_DEVICE_MAP)
      = some boot_devices.PXE :=
  c2_forward_reverse_roundtrip.1 boot_devices.PXE (by decide)

/-! The remote resource graph handed to the driver by the resource-client
collaborator.  Scalar attribute values (readings, serial numbers, ...) are
strings or integers; a sub-resource attribute that may be missing on the
remote resource is an `Option`.  The lazily fetched sub-resources whose
access the source wraps in `try/except SushyError` (`chassis.thermal`,
`chassis.power`, `simple_storage.get_members()`) are `Except`-valued. -/

/-- A scalar attribute value exposed by a remote resource. -/
inductive Scalar : Type where
  | str : String → Scalar
  | num : Int → Scalar
deriving DecidableEq, Repr

/-- An error raised by the external sushy library (a remote/protocol
failure). -/
structure SushyError : Type where
  msg : String
deriving DecidableEq, Repr

/-- A sensor reading: attribute name to scalar value (a Python dict). -/
abbrev AttrDict := List (String × Scalar)

/-- A sensor category: unique sensor key to reading (a Python dict). -/
abbrev SensorDict := List (String × AttrDict)

/-- A nested sushy status sub-object with its state/health fields. -/
structure RStatus : Type where
  state : Option Scalar := none
  health : Option Scalar := none
deriving DecidableEq, Repr

/-- A fan resource under `chassis.thermal.fans`. -/
structure Fan : Type where
  identity : String
  max_reading_range : Option Scalar := none
  min_reading_range : Option Scalar := none
  reading : Option Scalar := none
  reading_units : Option Scalar := none
  serial_number : Option Scalar := none
  physical_context : Option Scalar := none
  status : RStatus := {}
deriving DecidableEq, Repr

/-- A temperature resource under `chassis.thermal.temperatures`. -/
structure Temperature : Type where
  identity : String
  max_reading_range_temp : Option Scalar := none
  min_reading_range_temp : Option Scalar := none
  reading_celsius : Option Scalar := none
  physical_context : Option Scalar := none
  sensor_number : Option Scalar := none
  status : RStatus := {}
deriving DecidableEq, Repr

/-- The `input_ranges` attribute of a power supply. -/
structure InputRanges : Type where
  minimum_voltage : Option Scalar := none
  maximum_voltage : Option Scalar := none
  minimum_frequency_hz : Option Scalar := none
  maximum_frequency_hz : Option Scalar := none
  output_wattage : Option Scalar := none
deriving DecidableEq, Repr

/-- A power supply under `chassis.power.power_supplies`. -/
structure PowerSupply : Type where
  identity : String
  power_capacity_watts : Option Scalar := none
  line_input_voltage : Option Scalar := none
  last_power_output_watts : Option Scalar := none
  serial_number : Option Scalar := none
  input_ranges : InputRanges := {}
  status : RStatus := {}
deriving DecidableEq, Repr

/-- The `chassis.thermal` sub-resource. -/
structure Thermal : Type where
  fans : List Fan := []
  temperatures : List Temperature := []
deriving DecidableEq, Repr

/-- The `chassis.power` sub-resource. -/
structure Power : Type where
  identity : String
  power_supplies : List PowerSupply := []
deriving DecidableEq, Repr

/-- A chassis attached to the system.  `thermal` and `power` are lazily
fetched and may raise a sushy error; `set_indicator_led_error` injects the
outcome of the chassis indicator write primitive. -/
structure Chassis : Type where
  identity : String
  uuid : String := ""
  indicator_led : String := sushy.INDICATOR_LED_OFF
  thermal : Except SushyError Thermal := .ok {}
  power : Except SushyError Power := .ok { identity := "0" }
  set_indicator_led_error : Option SushyError := none

/-- A storage drive: sensor attributes (`name`, `model`, `capacity_bytes`,
`status`) plus the indicator-bearing identity (`uuid`, `indicator_led`). -/
structure Drive : Type where
  name : String
  uuid : String := ""
  model : Option Scalar := none
  capacity_bytes : Option Scalar := none
  status : RStatus := {}
  indicator_led : String := sushy.INDICATOR_LED_OFF
  set_indicator_led_error : Option SushyError := none

/-- A storage controller under `system.simple_storage.get_members()`. -/
structure Storage : Type where
  identity : String
  devices : List Drive := []

/-- The `system.simple_storage` collection: `get_members()` is a lazy fetch
that may raise; `drives` is the flattened drive list used by the indicator
paths. -/
structure SimpleStorage : Type where
  members : Except SushyError (List Storage) := .ok []
  drives : List Drive := []

/-- The `system.boot` mapping (`target`, `enabled`, `mode` are each absent
or a remote protocol string). -/
structure Boot : Type where
  target : Option String := none
  enabled : Option String := none
  mode : Option String := none
deriving DecidableEq, Repr

/-- The root system resource of the node, an already-connected graph.  The
`..._error` fields inject the outcome of the remote write primitives
(`none` means the write succeeds). -/
structure System : Type where
  uuid : String
  identity : String := ""
  boot : Boot := {}
  chassis : List Chassis := []
  simple_storage : SimpleStorage := {}
  indicator_led : String := sushy.INDICATOR_LED_OFF
  set_indicator_led_error : Option SushyError := none
  set_system_boot_options_error : Option SushyError := none
  set_system_boot_source_error : Option SushyError := none

/-- Exceptions this layer raises: `keyError` models the Python `KeyError`
escaping a direct `reverse[...]` dict lookup (the hard invalid-parameter
failure — `except SushyError` does not catch it), `redfishError` models
`exception.RedfishError`, and `missingParameterValue` models
`exception.MissingParameterValue`. -/
inductive Err : Type where
  | keyError : String → Err
  | redfishError : String → Err
  | missingParameterValue : String → Err
deriving DecidableEq, Repr

/-! Sensor collection (`_sensor2dict`, `_get_sensors_fan`,
`_get_sensors_temperatures`, `_get_sensors_power`, `_get_sensors_drive`,
`get_sensors_data`). -/

/-- The `%s@%s` unique-key format shared by fan and temperature readings:
local identity at chassis identity. -/
def at_key (localId chassisId : String) : String :=
  localId ++ "@" ++ chassisId

/-- The `%s:%s@%s` unique-key format of power readings: supply identity,
power-subsystem identity, chassis identity. -/
def power_key (supplyId powerId chassisId : String) : String :=
  supplyId ++ ":" ++ powerId ++ "@" ++ chassisId

/-- The `%s:%s@%s` unique-key format of drive readings: drive name,
storage identity, system identity. -/
def drive_key (driveName storageId systemId : String) : String :=
  driveName ++ ":" ++ storageId ++ "@" ++ systemId

/-- `_sensor2dict(resource, *fields)`: dict comprehension copying, in order,
each listed field that is present on the resource. -/
def _sensor2dict (fields : List (String × Option Scalar)) : AttrDict :=
  fields.foldl
    (fun d p =>
      match p.2 with
      | some v => dinsert d p.1 v
      | none => d) []

/-- The attribute projection of one fan reading (base fields, then the
status state/health fields merged in by `update`). -/
def fan2dict (f : Fan) : AttrDict :=
  pyUpdate
    (_sensor2dict
      [("identity", some (.str f.identity)),
       ("max_reading_range", f.max_reading_range),
       ("min_reading_range", f.min_reading_range),
       ("reading", f.reading),
       ("reading_units", f.reading_units),
       ("serial_number", f.serial_number),
       ("physical_context", f.physical_context)])
    (_sensor2dict [("state", f.status.state), ("health", f.status.health)])

/-- The attribute projection of one temperature reading. -/
def temperature2dict (t : Temperature) : AttrDict :=
  pyUpdate
    (_sensor2dict
      [("identity", some (.str t.identity)),
       ("max_reading_range_temp", t.max_reading_range_temp),
       ("min_reading_range_temp", t.min_reading_range_temp),
       ("reading_celsius", t.reading_celsius),
       ("physical_context", t.physical_context),
       ("sensor_number", t.sensor_number)])
    (_sensor2dict [("state", t.status.state), ("health", t.status.health)])

/-- The attribute projection of one power-supply reading (base fields, then
status, then input-range fields). -/
def powerSupply2dict (p : PowerSupply) : AttrDict :=
  pyUpdate
    (pyUpdate
      (_sensor2dict
        [("power_capacity_watts", p.power_capacity_watts),
         ("line_input_voltage", p.line_input_voltage),
         ("last_power_output_watts", p.last_power_output_watts),
         ("serial_number", p.serial_number)])
      (_sensor2dict [("state", p.status.state), ("health", p.status.health)]))
    (_sensor2dict
      [("minimum_voltage", p.input_ranges.minimum_voltage),
       ("maximum_voltage", p.input_ranges.maximum_voltage),
       ("minimum_frequency_hz", p.input_ranges.minimum_frequency_hz),
       ("maximum_frequency_hz", p.input_ranges.maximum_frequency_hz),
       ("output_wattage", p.input_ranges.output_wattage)])

/-- The attribute projection of one drive reading. -/
def drive2dict (d : Drive) : AttrDict :=
  pyUpdate
    (_sensor2dict
      [("name", some (.str d.name)),
       ("model", d.model),
       ("capacity_bytes", d.capacity_bytes)])
    (_sensor2dict [("state", d.status.state), ("health", d.status.health)])

/-- `_get_sensors_fan(chassis)`: fetches `chassis.thermal` (which may raise)
and keys each fan reading by `fan.identity @ chassis.identity`. -/
def _get_sensors_fan (chassis : Chassis) : Except SushyError SensorDict := do
  let thermal ← chassis.thermal
  return thermal.fans.foldl
    (fun sensors fan =>
      dinsert sensors (at_key fan.identity chassis.identity) (fan2dict fan)) []

/-- `_get_sensors_temperatures(chassis)`. -/
def _get_sensors_temperatures (chassis : Chassis) :
    Except SushyError SensorDict := do
  let thermal ← chassis.thermal
  return thermal.temperatures.foldl
    (fun sensors t =>
      dinsert sensors (at_key t.identity chassis.identity)
        (temperature2dict t)) []

/-- `_get_sensors_power(chassis)`: fetches `chassis.power` (which may raise)
and keys each supply by `supply.identity : power.identity @
chassis.identity`. -/
def _get_sensors_power (chassis : Chassis) : Except SushyError SensorDict := do
  let power ← chassis.power
  return power.power_supplies.foldl
    (fun sensors p =>
      dinsert sensors (power_key p.identity power.identity chassis.identity)
        (powerSupply2dict p)) []

/-- `_get_sensors_drive(system)`: fetches the storage members (which may
raise) and keys each drive by `drive.name : storage.identity @
system.identity`. -/
def _get_sensors_drive (sys : System) : Except SushyError SensorDict := do
  let storages ← sys.simple_storage.members
  return storages.foldl
    (fun sensors storage =>
      storage.devices.foldl
        (fun sensors drive =>
          dinsert sensors
            (drive_key drive.name storage.identity sys.identity)
            (drive2dict drive)) sensors) []

/-- The `collections.defaultdict(dict)` accumulator of `get_sensors_data`.
Its keys can only ever be the four category literals, so it is represented
by four optional inner dicts: `none` means the key has never been touched
(absent from the returned mapping), `some d` means the key is present with
inner dict `d`. -/
structure Sensors : Type where
  fan : Option SensorDict := none
  temperature : Option SensorDict := none
  power : Option SensorDict := none
  drive : Option SensorDict := none

/-- One loop iteration of `get_sensors_data` for one chassis: for each of
Fan, Temperature and Power, `sensors[cat]` is first read from the
defaultdict (creating the key), and then updated with the fetched readings
unless the fetch raised a sushy error (try/except: the failed combination
is skipped). -/
def sensorsStep (chassis : Chassis) (s : Sensors) : Sensors :=
  let fanD := s.fan.getD []
  let fanNew := pytry (_get_sensors_fan chassis) (pyUpdate fanD) fanD
  let s := { s with fan := some fanNew }
  let tempD := s.temperature.getD []
  let tempNew := pytry (_get_sensors_temperatures chassis) (pyUpdate tempD) tempD
  let s := { s with temperature := some tempNew }
  let powerD := s.power.getD []
  let powerNew := pytry (_get_sensors_power chassis) (pyUpdate powerD) powerD
  { s with power := some powerNew }

/-- `get_sensors_data(task)`: iterates all chassis collecting Fan,
Temperature and Power with per-category/per-chassis failure isolation, then
collects Drive once per system, also isolated. -/
def get_sensors_data (sys : System) : Sensors :=
  let s := sys.chassis.foldl (fun s chassis => sensorsStep chassis s) {}
  let driveD := s.drive.getD []
  let driveNew := pytry (_get_sensors_drive sys) (pyUpdate driveD) driveD
  { s with drive := some driveNew }

/-- Reference per-category aggregation: folding only the successfully
fetched per-chassis dicts together, in chassis order, skipping every
chassis whose fetch for this category raised; the category is absent
(`none`) when there is no chassis at all. -/
def collectedCategory (fetch : Chassis → Except SushyError SensorDict)
    (chassisList : List Chassis) : Option SensorDict :=
  match chassisList with
  | [] => none
  | _ => some ((chassisList.filterMap (fun c => (fetch c).toOption)).foldl
      pyUpdate [])

/-! Boot device / boot mode operations.  Each mutating operation returns its
outcome together with the list of remote write calls it issued (its write
trace), so that "issues no remote write" is the trace being empty. -/

/-- The argument record of one `system.set_system_boot_options` call. -/
structure BootOptionsWrite : Type where
  target : String
  enabled : Option String
deriving DecidableEq, Repr

/-- The argument record of one `system.set_system_boot_source` call. -/
structure BootSourceWrite : Type where
  target : Option String
  enabled : Option String
  mode : String
deriving DecidableEq, Repr

/-- Modelled from the spec: the sushy `set_system_boot_options(target,
enabled=...)` remote call of the external resource-client collaborator
(not part of this repository).  It always writes the boot target; passing
"no override" (`None`) for `enabled` leaves the remote persistence setting
unchanged, while an explicit value sets it.  It raises the error
injected on the system when one is configured. -/
def sushy_set_system_boot_options (sys : System) (target : String)
    (enabled : Option String) : Except SushyError System :=
  match sys.set_system_boot_options_error with
  | some e => .error e
  | none =>
    let newEnabled := match enabled with
      | some v => some v
      | none => sys.boot.enabled
    .ok { sys with boot := { sys.boot with target := some target, enabled := newEnabled } }

/-- Modelled from the spec: the sushy `set_system_boot_source(device,
enabled=..., mode=...)` remote call (external collaborator): writes the
given device, override flag and mode, or raises the injected error. -/
def sushy_set_system_boot_source (sys : System) (device : Option String)
    (enabled : Option String) (mode : String) : Except SushyError System :=
  match sys.set_system_boot_source_error with
  | some e => .error e
  | none =>
    .ok { sys with boot := { target := device, enabled := enabled, mode := some mode } }

/-- The error message of `set_boot_device` on a sushy failure. -/
def setBootDeviceFailMsg (uuid emsg : String) : String :=
  "Redfish set boot device failed for node " ++ uuid ++ ". Error: " ++ emsg

/-- `set_boot_device(task, device, persistent)`: reverse-maps the requested
persistence, reads the current persistence from the remote system, passes
no override when they already agree, and issues one
`set_system_boot_options` write with the reverse-mapped device.  The
reverse device lookup `BOOT_DEVICE_MAP_REV[device]` is a direct dict
lookup: an unsupported device escapes as a `KeyError` before any write.  A
sushy failure of the write is wrapped into `RedfishError`. -/
def set_boot_device (uuid : String) (sys : System) (device : String)
    (persistent : Bool) : Except Err System × List BootOptionsWrite :=
  match pyGet BOOT_DEVICE_PERSISTENT_MAP_REV persistent with
  | none => (.error (.keyError (toString persistent)), [])
  | some desired =>
    let current := sys.boot.enabled
    let enabled : Option String :=
      if current = some desired then none else some desired
    match pyGet BOOT_DEVICE_MAP_REV device with
    | none => (.error (.keyError device), [])
    | some target =>
      match sushy_set_system_boot_options sys target enabled with
      | .ok newSys => (.ok newSys, [{ target := target, enabled := enabled }])
      | .error e =>
        (.error (.redfishError (setBootDeviceFailMsg uuid e.msg)),
         [{ target := target, enabled := enabled }])

/-- The dictionary returned by `get_boot_device`. -/
structure BootDeviceResult : Type where
  boot_device : Option String
  persistent : Option Bool
deriving DecidableEq, Repr

/-- `get_boot_device(task)`: forward-maps the current remote boot target
and persistence with `.get`, so unknown or absent remote values surface as
`None` and the call never raises. -/
def get_boot_device (sys : System) : BootDeviceResult :=
  { boot_device := sys.boot.target.bind (pyGet BOOT_DEVICE_MAP),
    persistent := sys.boot.enabled.bind (pyGet BOOT_DEVICE_PERSISTENT_MAP) }

/-- The precondition error message of `set_boot_mode` when the boot device
is not set. -/
def bootDeviceNotSetMsg (uuid : String) : String :=
  "Cannot change boot mode on node " ++ uuid ++
    " because its boot device is not set."

/-- The precondition error message of `set_boot_mode` when the boot source
override is not set. -/
def bootOverrideNotSetMsg (uuid : String) : String :=
  "Cannot change boot mode on node " ++ uuid ++
    " because its boot source override is not set."

/-- The error message of `set_boot_mode` on a sushy failure. -/
def setBootModeFailMsg (mode uuid emsg : String) : String :=
  "Setting boot mode to " ++ mode ++ " failed for node " ++ uuid ++
    ". Error: " ++ emsg

/-- `set_boot_mode(task, mode)`: requires the current boot device and the
current override flag to be set (truthy) on the remote system, failing with
a `RedfishError` naming the missing precondition before any write;
otherwise issues one `set_system_boot_source` write of the current device,
current override flag and reverse-mapped mode (where an unsupported mode
escapes as a `KeyError` before the write). -/
def set_boot_mode (uuid : String) (sys : System) (mode : String) :
    Except Err System × List BootSourceWrite :=
  let boot_device := sys.boot.target
  if pyFalsy boot_device then
    (.error (.redfishError (bootDeviceNotSetMsg uuid)), [])
  else
    let boot_override := sys.boot.enabled
    if pyFalsy boot_override then
      (.error (.redfishError (bootOverrideNotSetMsg uuid)), [])
    else
      match pyGet BOOT_MODE_MAP_REV mode with
      | none => (.error (.keyError mode), [])
      | some m =>
        match sushy_set_system_boot_source sys boot_device boot_override m with
        | .ok newSys =>
          (.ok newSys,
           [{ target := boot_device, enabled := boot_override, mode := m }])
        | .error e =>
          (.error (.redfishError (setBootModeFailMsg mode uuid e.msg)),
           [{ target := boot_device, enabled := boot_override, mode := m }])

/-- `get_boot_mode(task)`: forward-maps the current remote boot mode with
`.get`; unknown or absent values surface as `None`, never an error. -/
def get_boot_mode (sys : System) : Option String :=
  sys.boot.mode.bind (pyGet BOOT_MODE_MAP)

/-! Indicator operations. -/

/-- The record of one `resource.set_indicator_led(value)` remote write:
which resource (by its uuid) and which remote value. -/
structure IndicatorWrite : Type where
  resourceUuid : String
  value : String
deriving DecidableEq, Repr

/-- The `MissingParameterValue` message naming the unknown indicator, the
component and the node. -/
def unknownIndicatorMsg (indicator component uuid : String) : String :=
  "Unknown indicator " ++ indicator ++ " for component " ++ component ++
    " of node " ++ uuid

/-- The `RedfishError` message of `set_indicator_state` on a sushy
failure. -/
def setIndicatorFailMsg (component indicator state uuid emsg : String) :
    String :=
  "Redfish set " ++ component ++ " indicator " ++ indicator ++ " state " ++
    state ++ " failed for node " ++ uuid ++ ". Error: " ++ emsg

/-- `set_indicator_state(task, component, indicator, state)`: resolves the
indicator strictly within the requested component kind (system singleton by
uuid, chassis list by uuid, drive list by uuid), writes the reverse-mapped
state to the matched resource (`INDICATOR_MAP_REV[state]` is a direct
lookup whose `KeyError` escapes before the write), wraps a sushy write
failure into `RedfishError`, and falls through to `MissingParameterValue`
when nothing matched. -/
def set_indicator_state (uuid : String) (sys : System) (component indicator state : String) :
    Except Err Unit × List IndicatorWrite :=
  if component = components.SYSTEM ∧ indicator = sys.uuid then
    match pyGet INDICATOR_MAP_REV state with
    | none => (.error (.keyError state), [])
    | some v =>
      match sys.set_indicator_led_error with
      | some e =>
        (.error (.redfishError (setIndicatorFailMsg component indicator state uuid e.msg)),
         [{ resourceUuid := sys.uuid, value := v }])
      | none => (.ok (), [{ resourceUuid := sys.uuid, value := v }])
  else if component = components.CHASSIS ∧ sys.chassis.isEmpty = false then
    match sys.chassis.find? (fun c => c.uuid == indicator) with
    | some chassis =>
      match pyGet INDICATOR_MAP_REV state with
      | none => (.error (.keyError state), [])
      | some v =>
        match chassis.set_indicator_led_error with
        | some e =>
          (.error (.redfishError (setIndicatorFailMsg component indicator state uuid e.msg)),
           [{ resourceUuid := chassis.uuid, value := v }])
        | none => (.ok (), [{ resourceUuid := chassis.uuid, value := v }])
    | none =>
      (.error (.missingParameterValue (unknownIndicatorMsg indicator component uuid)), [])
  else if component = components.DISK ∧ sys.simple_storage.drives.isEmpty = false then
    match sys.simple_storage.drives.find? (fun d => d.uuid == indicator) with
    | some drive =>
      match pyGet INDICATOR_MAP_REV state with
      | none => (.error (.keyError state), [])
      | some v =>
        match drive.set_indicator_led_error with
        | some e =>
          (.error (.redfishError (setIndicatorFailMsg component indicator state uuid e.msg)),
           [{ resourceUuid := drive.uuid, value := v }])
        | none => (.ok (), [{ resourceUuid := drive.uuid, value := v }])
    | none =>
      (.error (.missingParameterValue (unknownIndicatorMsg indicator component uuid)), [])
  else
    (.error (.missingParameterValue (unknownIndicatorMsg indicator component uuid)), [])

/-- `get_indicator_state(task, component, indicator)`: resolves the
indicator strictly within the requested component kind and forward-maps the
current LED value of the matched resource with a direct `INDICATOR_MAP[...]`
lookup (whose `KeyError` escapes for a remote value outside the closed
indicator domain); falls through to `MissingParameterValue` when nothing
matched.  The second component of the result is the list of resources (by
uuid) whose indicator value was read. -/
def get_indicator_state (uuid : String) (sys : System) (component indicator : String) :
    Except Err String × List String :=
  if component = components.SYSTEM ∧ indicator = sys.uuid then
    match pyGet INDICATOR_MAP sys.indicator_led with
    | some s => (.ok s, [sys.uuid])
    | none => (.error (.keyError sys.indicator_led), [sys.uuid])
  else if component = components.CHASSIS ∧ sys.chassis.isEmpty = false then
    match sys.chassis.find? (fun c => c.uuid == indicator) with
    | some chassis =>
      match pyGet INDICATOR_MAP chassis.indicator_led with
      | some s => (.ok s, [chassis.uuid])
      | none => (.error (.keyError chassis.indicator_led), [chassis.uuid])
    | none =>
      (.error (.missingParameterValue (unknownIndicatorMsg indicator component uuid)), [])
  else if component = components.DISK ∧ sys.simple_storage.drives.isEmpty = false then
    match sys.simple_storage.drives.find? (fun d => d.uuid == indicator) with
    | some drive =>
      match pyGet INDICATOR_MAP drive.indicator_led with
      | some s => (.ok s, [drive.uuid])
      | none => (.error (.keyError drive.indicator_led), [drive.uuid])
    | none =>
      (.error (.missingParameterValue (unknownIndicatorMsg indicator component uuid)), [])
  else
    (.error (.missingParameterValue (unknownIndicatorMsg indicator component uuid)), [])

/-! Claims about the read accessors and the reverse-lookup failure mode. -/

/-- C9: for every remote boot-target, persistence or boot-mode value outside
the defined protocol domain (including absent values), `get_boot_device`
returns `none` for the corresponding field and `get_boot_mode` returns
`none`; both are total functions of the remote state and never raise. -/
theorem c9_unknown_remote_values_map_to_none (sys : System) :
    ((∀ t ∈ sys.boot.target, pyGet BOOT_DEVICE_MAP t = none) →
      (get_boot_device sys).boot_device = none)
    ∧ ((∀ e ∈ sys.boot.enabled, pyGet BOOT_DEVICE_PERSISTENT_MAP e = none) →
      (get_boot_device sys).persistent = none)
    ∧ ((∀ m ∈ sys.boot.mode, pyGet BOOT_MODE_MAP m = none) →
      get_boot_mode sys = none) := by
  refine ⟨?_, ?_, ?_⟩
  · intro h
    show sys.boot.target.bind (pyGet BOOT_DEVICE_MAP) = none
    cases ht : sys.boot.target with
    | none => rfl
    | some t => exact h t (Option.mem_def.mpr ht)
  · intro h
    show sys.boot.enabled.bind (pyGet BOOT_DEVICE_PERSISTENT_MAP) = none
    cases he : sys.boot.enabled with
    | none => rfl
    | some e => exact h e (Option.mem_def.mpr he)
  · intro h
    show sys.boot.mode.bind (pyGet BOOT_MODE_MAP) = none
    cases hm : sys.boot.mode with
    | none => rfl
    | some m => exact h m (Option.mem_def.mpr hm)

/-- A system whose remote boot values all lie outside the defined protocol
domain. -/
def unknownRemoteSystem : System :=
  { uuid := "node-9",
    boot := { target := some "Floppy", enabled := some "Disabled", mode := some "Quantum" } }

/-- Witness for C9 on a system reporting out-of-domain remote values. -/
theorem c9_unknown_remote_values_map_to_none_witness :
    (get_boot_device unknownRemoteSystem).boot_device = none
    ∧ (get_boot_device unknownRemoteSystem).persistent = none
    ∧ get_boot_mode unknownRemoteSystem = none := by
  obtain ⟨h1, h2, h3⟩ := c9_unknown_remote_values_map_to_none unknownRemoteSystem
  exact ⟨h1 (by decide), h2 (by decide), h3 (by decide)⟩

/-- C5: `set_boot_mode` on a node whose remote system has no boot-source
target set, or no boot-source-override enabled flag set, fails with a
domain (Redfish) error naming the missing precondition and issues no remote
write (its write trace is empty). -/
theorem c5_set_boot_mode_preconditions (uuid mode : String) (sys : System) :
    (pyFalsy sys.boot.target = true →
      set_boot_mode uuid sys mode
        = (.error (.redfishError (bootDeviceNotSetMsg uuid)), []))
    ∧ (pyFalsy sys.boot.target = false → pyFalsy sys.boot.enabled = true →
      set_boot_mode uuid sys mode
        = (.error (.redfishError (bootOverrideNotSetMsg uuid)), [])) := by
  constructor
  · intro h
    simp [set_boot_mode, h]
  · intro h1 h2
    simp [set_boot_mode, h1, h2]

/-- A system with no boot target (and no override flag) set. -/
def unsetBootSystem : System :=
  { uuid := "node-5" }

/-- A system with a boot target but no override flag set. -/
def unsetOverrideSystem : System :=
  { uuid := "node-6",
    boot := { target := some sushy.BOOT_SOURCE_TARGET_PXE } }

/-- Witness for C5: both precondition failures at concrete systems. -/
theorem c5_set_boot_mode_preconditions_witness :
    (set_boot_mode "node-5" unsetBootSystem boot_modes.UEFI
      = (.error (.redfishError (bootDeviceNotSetMsg "node-5")), []))
    ∧ (set_boot_mode "node-6" unsetOverrideSystem boot_modes.UEFI
      = (.error (.redfishError (bootOverrideNotSetMsg "node-6")), [])) :=
  ⟨(c5_set_boot_mode_preconditions "node-5" boot_modes.UEFI unsetBootSystem).1 (by decide),
   (c5_set_boot_mode_preconditions "node-6" boot_modes.UEFI unsetOverrideSystem).2
     (by decide) (by decide)⟩

/-- Ground evaluation of the reverse persistence lookup: it is total over
the boolean domain. -/
theorem persist_rev_eval (b : Bool) :
    pyGet BOOT_DEVICE_PERSISTENT_MAP_REV b
      = some (if b then sushy.BOOT_SOURCE_ENABLED_CONTINUOUS
              else sushy.BOOT_SOURCE_ENABLED_ONCE) := by
  cases b <;> rfl

/-- C4: an abstract value outside the defined enum domain makes the direct
reverse lookup fail hard — a `KeyError` escaping the call (the
`except SushyError` handler does not catch it) — rather than silently
defaulting: an unsupported boot device fails `set_boot_device` before any
write, and an unsupported indicator state fails `set_indicator_state`
before any write even when the indicator matches the system. -/
theorem c4_reverse_lookup_fails_hard (uuid device state : String)
    (sys : System) (persistent : Bool)
    (hdev : pyGet BOOT_DEVICE_MAP_REV device = none)
    (hstate : pyGet INDICATOR_MAP_REV state = none) :
    set_boot_device uuid sys device persistent = (.error (.keyError device), [])
    ∧ set_indicator_state uuid sys components.SYSTEM sys.uuid state
        = (.error (.keyError state), []) := by
  constructor
  · simp [set_boot_device, persist_rev_eval, hdev]
  · simp [set_indicator_state, hstate]

/-- Witness for C4 at the unsupported boot device "floppy" and unsupported
indicator state "purple". -/
theorem c4_reverse_lookup_fails_hard_witness :
    set_boot_device "node-7" unsetBootSystem "floppy" true
      = (.error (.keyError "floppy"), [])
    ∧ set_indicator_state "node-7" unsetBootSystem components.SYSTEM
        unsetBootSystem.uuid "purple"
      = (.error (.keyError "purple"), []) :=
  c4_reverse_lookup_fails_hard "node-7" "floppy" "purple" unsetBootSystem true
    (by decide) (by decide)

/-- The remote system state after a successful `set_boot_device` write of
the given target with desired persistence. -/
def bootDeviceWritten (sys : System) (target desired : String) : System :=
  { sys with boot := { sys.boot with target := some target, enabled := some desired } }

/-- C3: for a supported device and either persistence flag,
`set_boot_device` reads the current persistence from the remote system and
issues exactly one write whose persistence-override argument is `none` (no
override) when the reverse-mapped desired persistence equals the current
remote value and the explicit reverse-mapped value otherwise; calling it a
second time with the same flag then passes no override and does not
error. -/
theorem c3_set_boot_device_persistence (uuid device : String) (sys : System)
    (persistent : Bool) (target desired : String)
    (hdev : pyGet BOOT_DEVICE_MAP_REV device = some target)
    (hper : pyGet BOOT_DEVICE_PERSISTENT_MAP_REV persistent = some desired)
    (hw : sys.set_system_boot_options_error = none) :
    set_boot_device uuid sys device persistent
      = (.ok (bootDeviceWritten sys target desired),
         [⟨target, if sys.boot.enabled = some desired then none else some desired⟩])
    ∧ set_boot_device uuid (bootDeviceWritten sys target desired) device persistent
      = (.ok (bootDeviceWritten sys target desired), [⟨target, none⟩]) := by
  constructor
  · simp only [set_boot_device, hper, hdev, sushy_set_system_boot_options, hw]
    by_cases hc : sys.boot.enabled = some desired
    · simp [hc, bootDeviceWritten, hw]
    · simp [hc, bootDeviceWritten, hw]
  · simp only [set_boot_device, hper, hdev, sushy_set_system_boot_options,
      bootDeviceWritten, hw]
    simp

/-- A system whose current persistence is "once" and whose boot-options
write primitive succeeds. -/
def bootDemoSystem : System :=
  { uuid := "node-1",
    boot := { enabled := some sushy.BOOT_SOURCE_ENABLED_ONCE } }

/-- Witness for C3: requesting `pxe` persistently on a system currently set
to one-time override writes an explicit `Continuous` override once, and a
second identical call writes no override and succeeds. -/
theorem c3_set_boot_device_persistence_witness :
    set_boot_device "node-1" bootDemoSystem boot_devices.PXE true
      = (.ok (bootDeviceWritten bootDemoSystem sushy.BOOT_SOURCE_TARGET_PXE
                sushy.BOOT_SOURCE_ENABLED_CONTINUOUS),
         [⟨sushy.BOOT_SOURCE_TARGET_PXE, some sushy.BOOT_SOURCE_ENABLED_CONTINUOUS⟩])
    ∧ set_boot_device "node-1"
        (bootDeviceWritten bootDemoSystem sushy.BOOT_SOURCE_TARGET_PXE
          sushy.BOOT_SOURCE_ENABLED_CONTINUOUS) boot_devices.PXE true
      = (.ok (bootDeviceWritten bootDemoSystem sushy.BOOT_SOURCE_TARGET_PXE
                sushy.BOOT_SOURCE_ENABLED_CONTINUOUS),
         [⟨sushy.BOOT_SOURCE_TARGET_PXE, none⟩]) := by
  have h := c3_set_boot_device_persistence "node-1" boot_devices.PXE
    bootDemoSystem true sushy.BOOT_SOURCE_TARGET_PXE
    sushy.BOOT_SOURCE_ENABLED_CONTINUOUS (by decide) (by decide) rfl
  simpa [bootDemoSystem] using h

/-! Indicator resolution claims: the lookup is confined to the requested
component kind and falls through to `MissingParameterValue` when nothing of
that kind matches. -/

/-- Helper: when the identifier matches no resource of the requested
component kind, `set_indicator_state` raises `MissingParameterValue` with
the message naming the indicator, the component and the node, and issues no
indicator write. -/
theorem set_indicator_state_no_match (uuid component indicator state : String)
    (sys : System)
    (h1 : component = components.SYSTEM → indicator ≠ sys.uuid)
    (h2 : component = components.CHASSIS → ∀ c ∈ sys.chassis, c.uuid ≠ indicator)
    (h3 : component = components.DISK →
      ∀ d ∈ sys.simple_storage.drives, d.uuid ≠ indicator) :
    set_indicator_state uuid sys component indicator state
      = (.error (.missingParameterValue
          (unknownIndicatorMsg indicator component uuid)), []) := by
  unfold set_indicator_state
  split_ifs with hA hB hC
  · exact absurd hA.2 (h1 hA.1)
  · have hfind : sys.chassis.find? (fun c => c.uuid == indicator) = none := by
      apply List.find?_eq_none.mpr
      intro c hc
      simpa using h2 hB.1 c hc
    rw [hfind]
  · have hfind : sys.simple_storage.drives.find? (fun d => d.uuid == indicator)
        = none := by
      apply List.find?_eq_none.mpr
      intro d hd
      simpa using h3 hC.1 d hd
    rw [hfind]
  · rfl

/-- Helper: the same fall-through for `get_indicator_state`, with no
indicator value read. -/
theorem get_indicator_state_no_match (uuid component indicator : String)
    (sys : System)
    (h1 : component = components.SYSTEM → indicator ≠ sys.uuid)
    (h2 : component = components.CHASSIS → ∀ c ∈ sys.chassis, c.uuid ≠ indicator)
    (h3 : component = components.DISK →
      ∀ d ∈ sys.simple_storage.drives, d.uuid ≠ indicator) :
    get_indicator_state uuid sys component indicator
      = (.error (.missingParameterValue
          (unknownIndicatorMsg indicator component uuid)), []) := by
  unfold get_indicator_state
  split_ifs with hA hB hC
  · exact absurd hA.2 (h1 hA.1)
  · have hfind : sys.chassis.find? (fun c => c.uuid == indicator) = none := by
      apply List.find?_eq_none.mpr
      intro c hc
      simpa using h2 hB.1 c hc
    rw [hfind]
  · have hfind : sys.simple_storage.drives.find? (fun d => d.uuid == indicator)
        = none := by
      apply List.find?_eq_none.mpr
      intro d hd
      simpa using h3 hC.1 d hd
    rw [hfind]
  · rfl

/-- C8: for every component kind and every indicator identifier matching no
resource of that kind on the node, `set_indicator_state` fails with a
missing-parameter error whose message names the indicator, the component
and the node, and issues no remote indicator write. -/
theorem c8_unknown_indicator_missing_parameter
    (uuid component indicator state : String) (sys : System)
    (h1 : component = components.SYSTEM → indicator ≠ sys.uuid)
    (h2 : component = components.CHASSIS → ∀ c ∈ sys.chassis, c.uuid ≠ indicator)
    (h3 : component = components.DISK →
      ∀ d ∈ sys.simple_storage.drives, d.uuid ≠ indicator) :
    set_indicator_state uuid sys component indicator state
      = (.error (.missingParameterValue
          (unknownIndicatorMsg indicator component uuid)), []) :=
  set_indicator_state_no_match uuid component indicator state sys h1 h2 h3

/-- A system with one chassis and one drive, each carrying an indicator. -/
def indicatorDemoSystem : System :=
  { uuid := "system-uuid",
    chassis := [{ identity := "ch0", uuid := "chassis-uuid" }],
    simple_storage := { drives := [{ name := "ssd0", uuid := "drive-uuid" }] } }

/-- Witness for C8: `set_indicator_state(SYSTEM, "unknown-id", ON)`. -/
theorem c8_unknown_indicator_missing_parameter_witness :
    set_indicator_state "node-uuid" indicatorDemoSystem components.SYSTEM
        "unknown-id" indicator_states.ON
      = (.error (.missingParameterValue
          (unknownIndicatorMsg "unknown-id" components.SYSTEM "node-uuid")), []) :=
  c8_unknown_indicator_missing_parameter "node-uuid" components.SYSTEM
    "unknown-id" indicator_states.ON indicatorDemoSystem
    (by decide) (by decide) (by decide)

/-- C10: indicator resolution is confined to the requested component kind:
when the identifier is the uuid of a resource of a different kind (but
matches nothing of the requested kind), both `get_indicator_state` and
`set_indicator_state` raise the unknown-indicator missing-parameter error,
read no indicator value and issue no indicator write — they never fall back
to the other component kinds. -/
theorem c10_indicator_lookup_confined_to_component
    (uuid component indicator state : String) (sys : System)
    (_hOtherKind : indicator = sys.uuid
      ∨ (∃ c ∈ sys.chassis, c.uuid = indicator)
      ∨ ∃ d ∈ sys.simple_storage.drives, d.uuid = indicator)
    (h1 : component = components.SYSTEM → indicator ≠ sys.uuid)
    (h2 : component = components.CHASSIS → ∀ c ∈ sys.chassis, c.uuid ≠ indicator)
    (h3 : component = components.DISK →
      ∀ d ∈ sys.simple_storage.drives, d.uuid ≠ indicator) :
    get_indicator_state uuid sys component indicator
      = (.error (.missingParameterValue
          (unknownIndicatorMsg indicator component uuid)), [])
    ∧ set_indicator_state uuid sys component indicator state
      = (.error (.missingParameterValue
          (unknownIndicatorMsg indicator component uuid)), []) :=
  ⟨get_indicator_state_no_match uuid component indicator sys h1 h2 h3,
   set_indicator_state_no_match uuid component indicator state sys h1 h2 h3⟩

/-- Witness for C10: asking for the SYSTEM indicator using a chassis uuid. -/
theorem c10_indicator_lookup_confined_to_component_witness :
    get_indicator_state "node-uuid" indicatorDemoSystem components.SYSTEM
        "chassis-uuid"
      = (.error (.missingParameterValue
          (unknownIndicatorMsg "chassis-uuid" components.SYSTEM "node-uuid")), [])
    ∧ set_indicator_state "node-uuid" indicatorDemoSystem components.SYSTEM
        "chassis-uuid" indicator_states.ON
      = (.error (.missingParameterValue
          (unknownIndicatorMsg "chassis-uuid" components.SYSTEM "node-uuid")), []) :=
  c10_indicator_lookup_confined_to_component "node-uuid" components.SYSTEM
    "chassis-uuid" indicator_states.ON indicatorDemoSystem
    (.inr (.inl (by decide))) (by decide) (by decide) (by decide)

/-! Unique sensor keys (claim C6): string-level injectivity of the key
formats in the container identifiers. -/

/-- The character data of a string concatenation. -/
theorem string_data_append (a b : String) : (a ++ b).data = a.data ++ b.data := by
  cases a
  cases b
  rfl

/-- Left cancellation for string concatenation. -/
theorem string_append_cancel_left {a b c : String} (h : a ++ b = a ++ c) :
    b = c := by
  have hd := congrArg String.data h
  rw [string_data_append, string_data_append] at hd
  have hbc := List.append_cancel_left hd
  cases b
  cases c
  exact congrArg String.mk hbc

/-- Right cancellation for string concatenation. -/
theorem string_append_cancel_right {a b c : String} (h : a ++ c = b ++ c) :
    a = b := by
  have hd := congrArg String.data h
  rw [string_data_append, string_data_append] at hd
  have hab := List.append_cancel_right hd
  cases a
  cases b
  exact congrArg String.mk hab

/-- The keys of a dict after one insertion: unchanged (in-place value
replacement) or extended by the new key at the end. -/
theorem pyKeys_dinsert {κ α : Type} [DecidableEq κ] (d : List (κ × α))
    (k : κ) (v : α) :
    pyKeys (dinsert d k v) = pyKeys d
    ∨ pyKeys (dinsert d k v) = pyKeys d ++ [k] := by
  induction d with
  | nil => exact .inr rfl
  | cons p d ih =>
    simp only [dinsert]
    by_cases hp : p.1 = k
    · rw [if_pos hp]
      left
      simp [pyKeys, hp]
    · rw [if_neg hp]
      rcases ih with h | h
      · left
        simp only [pyKeys, List.map_cons] at h ⊢
        rw [show (dinsert d k v).map Prod.fst = d.map Prod.fst from h]
      · right
        simp only [pyKeys, List.map_cons] at h ⊢
        rw [show (dinsert d k v).map Prod.fst = d.map Prod.fst ++ [k] from h]
        rfl

/-- Membership in the keys of a dict after one insertion: the new key or an
old key. -/
theorem mem_pyKeys_dinsert {κ α : Type} [DecidableEq κ]
    {d : List (κ × α)} {k x : κ} {v : α}
    (hx : x ∈ pyKeys (dinsert d k v)) : x = k ∨ x ∈ pyKeys d := by
  rcases pyKeys_dinsert d k v with h | h
  · rw [h] at hx
    exact .inr hx
  · rw [h] at hx
    rcases List.mem_append.mp hx with h2 | h2
    · exact .inr h2
    · exact .inl (by simpa using h2)

/-- Every key of the fan dict built by the `_get_sensors_fan` loop comes
from a fan of the list, keyed by `at_key`. -/
theorem fan_fold_keys (ch : Chassis) :
    ∀ (l : List Fan) (s : SensorDict) (x : String),
      x ∈ pyKeys (l.foldl
        (fun sensors fan =>
          dinsert sensors (at_key fan.identity ch.identity) (fan2dict fan)) s) →
      x ∈ pyKeys s ∨ ∃ f ∈ l, x = at_key f.identity ch.identity := by
  intro l
  induction l with
  | nil => intro s x hx; exact .inl hx
  | cons f t ih =>
    intro s x hx
    rw [List.foldl_cons] at hx
    rcases ih _ x hx with h | h
    · rcases mem_pyKeys_dinsert h with h2 | h2
      · exact .inr ⟨f, by simp, h2⟩
      · exact .inl h2
    · obtain ⟨g, hg, he⟩ := h
      exact .inr ⟨g, by simp [hg], he⟩

/-- C6: readings that reuse a local identifier under distinct containers
get distinct unique keys, for each of the three key formats used by
`get_sensors_data` (fan/temperature `local@chassis`, power
`supply:power@chassis`, drive `name:storage@system`); and every fan key
produced by `_get_sensors_fan` for a chassis has the `at_key _ chassis`
form. -/
theorem c6_sensor_keys_distinct :
    (∀ localId c1 c2 : String, c1 ≠ c2 →
      at_key localId c1 ≠ at_key localId c2)
    ∧ (∀ supplyId powerId c1 c2 : String, c1 ≠ c2 →
      power_key supplyId powerId c1 ≠ power_key supplyId powerId c2)
    ∧ (∀ driveName s1 s2 sysId : String, s1 ≠ s2 →
      drive_key driveName s1 sysId ≠ drive_key driveName s2 sysId)
    ∧ (∀ (ch : Chassis) (thermal : Thermal) (d : SensorDict),
      ch.thermal = .ok thermal → _get_sensors_fan ch = .ok d →
      ∀ k ∈ pyKeys d, ∃ f ∈ thermal.fans, k = at_key f.identity ch.identity) := by
  refine ⟨?_, ?_, ?_, ?_⟩
  · intro localId c1 c2 hne h
    exact hne (string_append_cancel_left (a := localId ++ "@") h)
  · intro supplyId powerId c1 c2 hne h
    exact hne
      (string_append_cancel_left (a := supplyId ++ ":" ++ powerId ++ "@") h)
  · intro driveName s1 s2 sysId hne h
    have h1 : driveName ++ ":" ++ s1 ++ "@" = driveName ++ ":" ++ s2 ++ "@" :=
      string_append_cancel_right (c := sysId) h
    have h2 : driveName ++ ":" ++ s1 = driveName ++ ":" ++ s2 :=
      string_append_cancel_right (c := "@") h1
    exact hne (string_append_cancel_left (a := driveName ++ ":") h2)
  · intro ch thermal d hth hd k hk
    have hdict : d = thermal.fans.foldl
        (fun sensors fan =>
          dinsert sensors (at_key fan.identity ch.identity) (fan2dict fan)) [] := by
      have : _get_sensors_fan ch = .ok (thermal.fans.foldl
          (fun sensors fan =>
            dinsert sensors (at_key fan.identity ch.identity) (fan2dict fan)) []) := by
        simp [_get_sensors_fan, hth]
      rw [hd] at this
      exact Except.ok.inj this
    subst hdict
    rcases fan_fold_keys ch thermal.fans [] k hk with h | h
    · simp [pyKeys] at h
    · exact h

/-- Witness for C6: two chassis both containing a fan with local identifier
"0" yield the distinct keys "0@chassis-A" and "0@chassis-B". -/
theorem c6_sensor_keys_distinct_witness :
    at_key "0" "chassis-A" ≠ at_key "0" "chassis-B" :=
  c6_sensor_keys_distinct.1 "0" "chassis-A" "chassis-B" (by decide)

/-! Claim C1: per-category / per-chassis failure isolation of
`get_sensors_data`. -/

/-- The Fan field after one chassis iteration (the defaultdict access
creates the key; the update is skipped when the fetch raised). -/
theorem sensorsStep_fan (c : Chassis) (s : Sensors) :
    (sensorsStep c s).fan
      = some (pytry (_get_sensors_fan c) (pyUpdate (s.fan.getD []))
          (s.fan.getD [])) := rfl

/-- The Temperature field after one chassis iteration. -/
theorem sensorsStep_temperature (c : Chassis) (s : Sensors) :
    (sensorsStep c s).temperature
      = some (pytry (_get_sensors_temperatures c)
          (pyUpdate (s.temperature.getD [])) (s.temperature.getD [])) := rfl

/-- The Power field after one chassis iteration. -/
theorem sensorsStep_power (c : Chassis) (s : Sensors) :
    (sensorsStep c s).power
      = some (pytry (_get_sensors_power c) (pyUpdate (s.power.getD []))
          (s.power.getD [])) := rfl

/-- The chassis loop never touches the Drive category. -/
theorem foldl_sensorsStep_drive :
    ∀ (l : List Chassis) (s : Sensors),
      (l.foldl (fun s chassis => sensorsStep chassis s) s).drive = s.drive := by
  intro l
  induction l with
  | nil => intro s; rfl
  | cons c t ih =>
    intro s
    rw [List.foldl_cons, ih]
    exact rfl

/-- Running the chassis loop threads the Fan category exactly as folding
the successful fan fetches together, skipping chassis whose fan fetch
raised. -/
theorem foldl_sensorsStep_fan :
    ∀ (l : List Chassis) (s : Sensors) (d : SensorDict), s.fan = some d →
      (l.foldl (fun s chassis => sensorsStep chassis s) s).fan
        = some ((l.filterMap (fun c => (_get_sensors_fan c).toOption)).foldl
            pyUpdate d) := by
  intro l
  induction l with
  | nil =>
    intro s d h
    simpa using h
  | cons c t ih =>
    intro s d h
    rw [List.foldl_cons, List.filterMap_cons]
    cases hf : _get_sensors_fan c with
    | ok a =>
      have hstep : (sensorsStep c s).fan = some (pyUpdate d a) := by
        rw [sensorsStep_fan, h]
        simp [pytry, hf]
      rw [ih (sensorsStep c s) (pyUpdate d a) hstep]
      simp [hf, Except.toOption]
    | error e =>
      have hstep : (sensorsStep c s).fan = some d := by
        rw [sensorsStep_fan, h]
        simp [pytry, hf]
      rw [ih (sensorsStep c s) d hstep]
      simp [hf, Except.toOption]

/-- Temperature analogue of `foldl_sensorsStep_fan`. -/
theorem foldl_sensorsStep_temperature :
    ∀ (l : List Chassis) (s : Sensors) (d : SensorDict),
      s.temperature = some d →
      (l.foldl (fun s chassis => sensorsStep chassis s) s).temperature
        = some ((l.filterMap
            (fun c => (_get_sensors_temperatures c).toOption)).foldl
            pyUpdate d) := by
  intro l
  induction l with
  | nil =>
    intro s d h
    simpa using h
  | cons c t ih =>
    intro s d h
    rw [List.foldl_cons, List.filterMap_cons]
    cases hf : _get_sensors_temperatures c with
    | ok a =>
      have hstep : (sensorsStep c s).temperature = some (pyUpdate d a) := by
        rw [sensorsStep_temperature, h]
        simp [pytry, hf]
      rw [ih (sensorsStep c s) (pyUpdate d a) hstep]
      simp [hf, Except.toOption]
    | error e =>
      have hstep : (sensorsStep c s).temperature = some d := by
        rw [sensorsStep_temperature, h]
        simp [pytry, hf]
      rw [ih (sensorsStep c s) d hstep]
      simp [hf, Except.toOption]

/-- Power analogue of `foldl_sensorsStep_fan`. -/
theorem foldl_sensorsStep_power :
    ∀ (l : List Chassis) (s : Sensors) (d : SensorDict), s.power = some d →
      (l.foldl (fun s chassis => sensorsStep chassis s) s).power
        = some ((l.filterMap (fun c => (_get_sensors_power c).toOption)).foldl
            pyUpdate d) := by
  intro l
  induction l with
  | nil =>
    intro s d h
    simpa using h
  | cons c t ih =>
    intro s d h
    rw [List.foldl_cons, List.filterMap_cons]
    cases hf : _get_sensors_power c with
    | ok a =>
      have hstep : (sensorsStep c s).power = some (pyUpdate d a) := by
        rw [sensorsStep_power, h]
        simp [pytry, hf]
      rw [ih (sensorsStep c s) (pyUpdate d a) hstep]
      simp [hf, Except.toOption]
    | error e =>
      have hstep : (sensorsStep c s).power = some d := by
        rw [sensorsStep_power, h]
        simp [pytry, hf]
      rw [ih (sensorsStep c s) d hstep]
      simp [hf, Except.toOption]

/-- Structure extensionality for the sensors accumulator. -/
theorem sensorsExt {a b : Sensors} (hf : a.fan = b.fan)
    (ht : a.temperature = b.temperature) (hp : a.power = b.power)
    (hd : a.drive = b.drive) : a = b := by
  cases a
  cases b
  simp_all

/-- C1: `get_sensors_data` isolates every category/chassis fetch failure:
the call always returns a result in which each of the three per-chassis
categories equals the fold of exactly the successful fetches of that
category over the chassis in order (failed combinations are omitted and
collection continues), and the once-per-system Drive category is the
successful drive fetch or empty; no fetch error propagates to the
caller. -/
theorem c1_get_sensors_data_isolates_failures (sys : System) :
    get_sensors_data sys =
      { fan := collectedCategory _get_sensors_fan sys.chassis,
        temperature := collectedCategory _get_sensors_temperatures sys.chassis,
        power := collectedCategory _get_sensors_power sys.chassis,
        drive := some (pytry (_get_sensors_drive sys) (pyUpdate []) []) } := by
  refine sensorsExt ?_ ?_ ?_ ?_
  · show (sys.chassis.foldl (fun s chassis => sensorsStep chassis s) {}).fan
      = collectedCategory _get_sensors_fan sys.chassis
    cases hl : sys.chassis with
    | nil => rfl
    | cons c t =>
      rw [List.foldl_cons]
      cases hf : _get_sensors_fan c with
      | ok a =>
        have h1 : (sensorsStep c ({} : Sensors)).fan = some (pyUpdate [] a) := by
          rw [sensorsStep_fan]
          simp [pytry, hf]
        rw [foldl_sensorsStep_fan t _ _ h1]
        simp [collectedCategory, List.filterMap_cons, hf, Except.toOption]
      | error e =>
        have h1 : (sensorsStep c ({} : Sensors)).fan = some [] := by
          rw [sensorsStep_fan]
          simp [pytry, hf]
        rw [foldl_sensorsStep_fan t _ _ h1]
        simp [collectedCategory, List.filterMap_cons, hf, Except.toOption]
  · show (sys.chassis.foldl
        (fun s chassis => sensorsStep chassis s) {}).temperature
      = collectedCategory _get_sensors_temperatures sys.chassis
    cases hl : sys.chassis with
    | nil => rfl
    | cons c t =>
      rw [List.foldl_cons]
      cases hf : _get_sensors_temperatures c with
      | ok a =>
        have h1 : (sensorsStep c ({} : Sensors)).temperature
            = some (pyUpdate [] a) := by
          rw [sensorsStep_temperature]
          simp [pytry, hf]
        rw [foldl_sensorsStep_temperature t _ _ h1]
        simp [collectedCategory, List.filterMap_cons, hf, Except.toOption]
      | error e =>
        have h1 : (sensorsStep c ({} : Sensors)).temperature = some [] := by
          rw [sensorsStep_temperature]
          simp [pytry, hf]
        rw [foldl_sensorsStep_temperature t _ _ h1]
        simp [collectedCategory, List.filterMap_cons, hf, Except.toOption]
  · show (sys.chassis.foldl (fun s chassis => sensorsStep chassis s) {}).power
      = collectedCategory _get_sensors_power sys.chassis
    cases hl : sys.chassis with
    | nil => rfl
    | cons c t =>
      rw [List.foldl_cons]
      cases hf : _get_sensors_power c with
      | ok a =>
        have h1 : (sensorsStep c ({} : Sensors)).power = some (pyUpdate [] a) := by
          rw [sensorsStep_power]
          simp [pytry, hf]
        rw [foldl_sensorsStep_power t _ _ h1]
        simp [collectedCategory, List.filterMap_cons, hf, Except.toOption]
      | error e =>
        have h1 : (sensorsStep c ({} : Sensors)).power = some [] := by
          rw [sensorsStep_power]
          simp [pytry, hf]
        rw [foldl_sensorsStep_power t _ _ h1]
        simp [collectedCategory, List.filterMap_cons, hf, Except.toOption]
  · show some (pytry (_get_sensors_drive sys)
        (pyUpdate ((sys.chassis.foldl
          (fun s chassis => sensorsStep chassis s) {}).drive.getD []))
        ((sys.chassis.foldl
          (fun s chassis => sensorsStep chassis s) {}).drive.getD []))
      = some (pytry (_get_sensors_drive sys) (pyUpdate []) [])
    rw [foldl_sensorsStep_drive sys.chassis {}]
    exact rfl

/-! Claim C7: presence of the category keys in the result of
`get_sensors_data`.  The Drive key is always created (the final defaultdict
access runs unconditionally), and the Fan/Temperature/Power keys are
created by the chassis loop body, hence exist exactly when the system has
at least one chassis. -/

/-- C7 (amended): the Drive category key is always present in the result of
`get_sensors_data` (with an empty mapping when nothing was collected), and
the Fan, Temperature and Power category keys are present — with empty
mappings when no readings were successfully collected — whenever the system
has at least one chassis; when the chassis list is empty those three
categories are absent from the result. -/
theorem c7_categories_present_with_chassis (sys : System) :
    (get_sensors_data sys).drive.isSome = true
    ∧ (sys.chassis ≠ [] →
        (get_sensors_data sys).fan.isSome = true
        ∧ (get_sensors_data sys).temperature.isSome = true
        ∧ (get_sensors_data sys).power.isSome = true)
    ∧ (sys.chassis = [] →
        (get_sensors_data sys).fan = none
        ∧ (get_sensors_data sys).temperature = none
        ∧ (get_sensors_data sys).power = none) := by
  refine ⟨rfl, ?_, ?_⟩
  · intro h
    refine ⟨?_, ?_, ?_⟩
    · show ((sys.chassis.foldl
        (fun s chassis => sensorsStep chassis s) {}).fan).isSome = true
      cases hl : sys.chassis with
      | nil => exact absurd hl h
      | cons c t =>
        rw [List.foldl_cons, foldl_sensorsStep_fan t _ _ (sensorsStep_fan c {})]
        rfl
    · show ((sys.chassis.foldl
        (fun s chassis => sensorsStep chassis s) {}).temperature).isSome = true
      cases hl : sys.chassis with
      | nil => exact absurd hl h
      | cons c t =>
        rw [List.foldl_cons,
          foldl_sensorsStep_temperature t _ _ (sensorsStep_temperature c {})]
        rfl
    · show ((sys.chassis.foldl
        (fun s chassis => sensorsStep chassis s) {}).power).isSome = true
      cases hl : sys.chassis with
      | nil => exact absurd hl h
      | cons c t =>
        rw [List.foldl_cons,
          foldl_sensorsStep_power t _ _ (sensorsStep_power c {})]
        rfl
  · intro h
    refine ⟨?_, ?_, ?_⟩
    · show ((sys.chassis.foldl
        (fun s chassis => sensorsStep chassis s) {}).fan) = none
      rw [h]
      rfl
    · show ((sys.chassis.foldl
        (fun s chassis => sensorsStep chassis s) {}).temperature) = none
      rw [h]
      rfl
    · show ((sys.chassis.foldl
        (fun s chassis => sensorsStep chassis s) {}).power) = none
      rw [h]
      rfl

/-- A system with no chassis at all. -/
def noChassisSystem : System :=
  { uuid := "node-0" }

/-- Counterexample to C7 as stated: on a system whose chassis list is
empty, the Fan, Temperature and Power category keys are absent from the
result of `get_sensors_data` (they are `none`, not an empty mapping), so a
category can be absent. -/
theorem c7_counterexample_no_chassis :
    (get_sensors_data noChassisSystem).fan = none
    ∧ (get_sensors_data noChassisSystem).temperature = none
    ∧ (get_sensors_data noChassisSystem).power = none :=
  ⟨rfl, rfl, rfl⟩

/-- A system with a single chassis (whose category fetches all succeed and
return no readings). -/
def oneChassisSystem : System :=
  { uuid := "node-2",
    chassis := [{ identity := "chassis-A" }] }

/-- Witness for the amended C7: with one chassis the Fan key is present,
with no chassis it is absent. -/
theorem c7_categories_present_with_chassis_witness :
    (get_sensors_data oneChassisSystem).fan.isSome = true
    ∧ (get_sensors_data noChassisSystem).fan = none :=
  ⟨((c7_categories_present_with_chassis oneChassisSystem).2.1
      (by simp [oneChassisSystem])).1,
   ((c7_categories_present_with_chassis noChassisSystem).2.2 rfl).1⟩
